import Mathlib

/-!
# ASHILAC backend (`server.js`): shallow embedding and verification

The Express handlers of `server.js` are embedded as pure functions over an explicit
`Store` (the three MongoDB collections).  What the handlers obtain from outside the
program is passed in explicitly:

* `Crypto`: `bcrypt.hash`, `bcrypt.compare` and `jwt.sign`;
* `Env`: what the surroundings decide for one request: whether a store call throws
  (and with which message), the clock, the fresh `_id` and the salt.

Stored identifiers are `ObjectId`s (a natural number stands for the 12 bytes).  The `:id`
segment of a path is a `PathId`: a string that either casts to an `ObjectId` or does not,
in which case `findById` throws a `CastError`.

JavaScript numbers are IEEE doubles.  The statements below are about integer participant
counts and capacities, so a number is embedded as the `Int` it denotes, and an addition
is the exact sum rounded to the nearest double (`jsAdd`): exact up to magnitude `2^53`,
rounded to even beyond.  Magnitudes at which a sum overflows to `Infinity` (`2^1024`) and
numbers with a fractional part are outside the embedding.

The `password` field of a request body may be missing or hold a value that is no
string (`Field`): `bcrypt` then throws.

The chat relay (`wss.on('connection')`) is embedded as a transition function over the
`chatClients` set together with the list of `client.send` calls it performs.
-/

namespace Ashilac

/-! ## Data model (the mongoose schemas) -/

abbrev ObjectId := Nat

/-- The `:id` segment of a request path (`req.params.id`): a string that casts to an
`ObjectId`, or one that does not. -/
inductive PathId where
  | wellFormed (id : ObjectId)
  | malformed (raw : String)
  deriving DecidableEq, Repr

/-- A field of a JSON request body where a string is expected: a string, no value at all,
or a value of another type (given by its `typeof`). -/
inductive Field where
  | str (value : String)
  | absent
  | other (typeName : String)
  deriving DecidableEq, Repr

/-- The `typeof` of the value of a field. -/
def Field.typeof : Field → String
  | .str _ => "string"
  | .absent => "undefined"
  | .other typeName => typeName

/-! ## Numbers (IEEE doubles holding integers) -/

/-- The bound `2^53`: every integer of at most this magnitude is a double. -/
def safeBound : Nat := 9007199254740992

/-- The number of low bits a double drops from a natural number `m`: the number of
halvings that bring `m` below `2^53`. -/
def excessBits : Nat → Nat → Nat
  | 0, _ => 0
  | fuel + 1, m => if m < safeBound then 0 else excessBits fuel (m / 2) + 1

/-- The double nearest to an integer, ties to the even significand. -/
def roundDouble (n : Int) : Int :=
  if n.natAbs ≤ safeBound then n
  else
    let e := excessBits n.natAbs n.natAbs
    let q := n.natAbs / 2 ^ e
    let r := n.natAbs % 2 ^ e
    let q' := if 2 ^ (e - 1) < r ∨ (r = 2 ^ (e - 1) ∧ q % 2 = 1) then q + 1 else q
    Int.sign n * Int.ofNat (q' * 2 ^ e)

/-- The JavaScript `a + b` on two doubles holding integers. -/
def jsAdd (a b : Int) : Int := roundDouble (a + b)

/-- The `profile` sub-document of `UserSchema`. -/
structure Profile where
  phone : Option String
  location : Option String
  interests : List String
  deriving DecidableEq, Repr

/-- A document of `UserSchema`. -/
structure User where
  id : ObjectId
  name : String
  email : String
  password : String
  role : String
  profile : Profile
  deriving DecidableEq, Repr

/-- An entry of `registrations` in `EventSchema`. -/
structure Registration where
  user : ObjectId
  date : Nat
  participants : Int
  deriving DecidableEq, Repr

/-- A document of `EventSchema`. -/
structure Event where
  id : ObjectId
  title : String
  description : String
  date : Nat
  location : String
  capacity : Int
  price : Int
  category : String
  image : String
  registrations : List Registration
  deriving DecidableEq, Repr

/-- An entry of `schedule` in `FormationSchema`. -/
structure Slot where
  day : String
  time : String
  deriving DecidableEq, Repr

/-- An entry of `students` in `FormationSchema`. -/
structure Student where
  user : ObjectId
  progress : Int
  completed : Bool
  deriving DecidableEq, Repr

/-- A document of `FormationSchema`. -/
structure Formation where
  id : ObjectId
  title : String
  description : String
  duration : String
  level : String
  instructor : String
  schedule : List Slot
  students : List Student
  deriving DecidableEq, Repr

/-- The three collections behind `models`. -/
structure Store where
  users : List User
  events : List Event
  formations : List Formation
  deriving DecidableEq, Repr

/-! ## Responses -/

/-- A registration after `populate('registrations.user')`. -/
structure PopulatedRegistration where
  user : Option User
  date : Nat
  participants : Int
  deriving DecidableEq, Repr

/-- An event after `populate('registrations.user')`. -/
structure PopulatedEvent where
  event : Event
  registrations : List PopulatedRegistration
  deriving DecidableEq, Repr

/-- A student entry after `populate('students.user')`. -/
structure PopulatedStudent where
  user : Option User
  progress : Int
  completed : Bool
  deriving DecidableEq, Repr

/-- A formation after `populate('students.user')`. -/
structure PopulatedFormation where
  formation : Formation
  students : List PopulatedStudent
  deriving DecidableEq, Repr

/-- The JSON bodies the handlers send. -/
inductive Body where
  | message (message : String)
  | auth (token : String) (id : ObjectId) (name : String) (email : String)
  | events (events : List PopulatedEvent)
  | formations (formations : List PopulatedFormation)
  | stats (members : Nat) (events : Nat) (formations : Nat) (revenue : Nat)
  deriving DecidableEq, Repr

/-- An HTTP response: `res.status(status).json(body)`; `res.json` alone is status 200. -/
structure Response where
  status : Nat
  body : Body
  deriving DecidableEq, Repr

/-! ## What the handlers obtain from outside -/

/-- The functions of `bcryptjs` and `jsonwebtoken` the handlers call. -/
structure Crypto where
  /-- The call `bcrypt.hash(password, 10)`; the second argument is the salt drawn. -/
  hash : String → Nat → String
  /-- The call `bcrypt.compare(password, hash)`. -/
  compare : String → String → Bool
  /-- The call `jwt.sign({ userId }, 'votre_secret_jwt')`; the second argument is the clock (`iat`). -/
  sign : ObjectId → Nat → String

/-- The three collections, as the keys of a `Promise.all` over their counts. -/
inductive Coll where
  | users
  | events
  | formations
  deriving DecidableEq, Repr

/-- What the surroundings decide for one request. -/
structure Env where
  /-- The read query of the request (`findOne`, `findById`, `find`) throws with this message. -/
  readFault : Option String
  /-- The `save()` of the request throws with this message. -/
  writeFault : Option String
  /-- The `countDocuments()` on a collection throws with this message. -/
  countFault : Coll → Option String
  /-- The order in which the three count queries settle. -/
  settleOrder : List Coll
  /-- The clock: `Date.now`. -/
  now : Nat
  /-- The `_id` given to a document created by `new models.User`. -/
  freshId : ObjectId
  /-- The salt `bcrypt.hash` draws. -/
  salt : Nat

/-! ## Store operations (mongoose) -/

/-- The message of the duplicate-key error MongoDB raises on a unique index. -/
def duplicateKeyMessage (index : String) : String :=
  "E11000 duplicate key error collection: ashilac.users index: " ++ index

/-- The call `user.save()` of a new document: `email` is `unique: true`, and so is `_id`. -/
def saveUser (env : Env) (s : Store) (user : User) : Except String Store :=
  match env.writeFault with
  | some m => .error m
  | none =>
    if s.users.any (fun u => u.id == user.id) then .error (duplicateKeyMessage "_id_")
    else if s.users.any (fun u => u.email == user.email) then
      .error (duplicateKeyMessage "email_1")
    else .ok { s with users := s.users ++ [user] }

/-- The query `models.User.findOne({ email })`. -/
def findOneUser (env : Env) (s : Store) (email : String) : Except String (Option User) :=
  match env.readFault with
  | some m => .error m
  | none => .ok (s.users.find? (fun u => u.email == email))

/-- The message of the `CastError` mongoose throws for an `_id` that is no `ObjectId`. -/
def castErrorMessage (raw model : String) : String :=
  "Cast to ObjectId failed for value \"" ++ raw ++ "\" (type string) at path \"_id\" for model \""
    ++ model ++ "\""

/-- The query `models.Event.findById(id)`: the id is cast before the store is asked. -/
def findEventById (env : Env) (s : Store) (id : PathId) : Except String (Option Event) :=
  match id with
  | .malformed raw => .error (castErrorMessage raw "Event")
  | .wellFormed id =>
    match env.readFault with
    | some m => .error m
    | none => .ok (s.events.find? (fun e => e.id == id))

/-- The query `models.Formation.findById(id)`: the id is cast before the store is asked. -/
def findFormationById (env : Env) (s : Store) (id : PathId) :
    Except String (Option Formation) :=
  match id with
  | .malformed raw => .error (castErrorMessage raw "Formation")
  | .wellFormed id =>
    match env.readFault with
    | some m => .error m
    | none => .ok (s.formations.find? (fun f => f.id == id))

/-- The update of the one document with the `_id` of `event` (first match). -/
def replaceEvent (event : Event) : List Event → List Event
  | [] => []
  | e :: es => if e.id == event.id then event :: es else e :: replaceEvent event es

/-- The update of the one document with the `_id` of `formation` (first match). -/
def replaceFormation (formation : Formation) : List Formation → List Formation
  | [] => []
  | f :: fs =>
    if f.id == formation.id then formation :: fs else f :: replaceFormation formation fs

/-- The call `event.save()` of a document that was fetched from the store. -/
def saveEvent (env : Env) (s : Store) (event : Event) : Except String Store :=
  match env.writeFault with
  | some m => .error m
  | none => .ok { s with events := replaceEvent event s.events }

/-- The call `formation.save()` of a document that was fetched from the store. -/
def saveFormation (env : Env) (s : Store) (formation : Formation) : Except String Store :=
  match env.writeFault with
  | some m => .error m
  | none => .ok { s with formations := replaceFormation formation s.formations }

/-- The resolution of a user reference by `populate`. -/
def populateUser (s : Store) (id : ObjectId) : Option User :=
  s.users.find? (fun u => u.id == id)

/-- The query `models.Event.find().populate('registrations.user')`. -/
def findEventsPopulated (env : Env) (s : Store) : Except String (List PopulatedEvent) :=
  match env.readFault with
  | some m => .error m
  | none =>
    .ok (s.events.map fun e =>
      { event := e
        registrations := e.registrations.map fun r =>
          { user := populateUser s r.user, date := r.date, participants := r.participants } })

/-- The query `models.Formation.find().populate('students.user')`. -/
def findFormationsPopulated (env : Env) (s : Store) :
    Except String (List PopulatedFormation) :=
  match env.readFault with
  | some m => .error m
  | none =>
    .ok (s.formations.map fun f =>
      { formation := f
        students := f.students.map fun st =>
          { user := populateUser s st.user, progress := st.progress,
            completed := st.completed } })

/-- The call `Promise.all` over the three counts: it rejects with the reason of the first query
to reject (in settling order), and resolves with the three counts otherwise. -/
def countAll (env : Env) (s : Store) : Except String (Nat × Nat × Nat) :=
  match (env.settleOrder ++ [Coll.users, Coll.events, Coll.formations]).filterMap
      env.countFault with
  | m :: _ => .error m
  | [] => .ok (s.users.length, s.events.length, s.formations.length)

/-! ## Calls to bcrypt -/

/-- The call `bcrypt.hash(password, 10)` of the handler: it throws when `password` is no
string. -/
def bcryptHash (c : Crypto) (password : Field) (salt : Nat) : Except String String :=
  match password with
  | .str value => .ok (c.hash value salt)
  | field => .error ("Illegal arguments: " ++ field.typeof ++ ", number")

/-- The call `bcrypt.compare(password, user.password)` of the handler: it throws when
`password` is no string. -/
def bcryptCompare (c : Crypto) (password : Field) (hash : String) : Except String Bool :=
  match password with
  | .str value => .ok (c.compare value hash)
  | field => .error ("Illegal arguments: " ++ field.typeof ++ ", string")

/-! ## The route handlers -/

/-- The `try` block of `app.post('/api/auth/register')`. -/
def registerBody (c : Crypto) (env : Env) (s : Store) (name email : String)
    (password : Field) : Except String (Store × Response) :=
  match bcryptHash c password env.salt with
  | .error m => .error m
  | .ok hashedPassword =>
    let user : User :=
      { id := env.freshId, name := name, email := email, password := hashedPassword,
        role := "member", profile := { phone := none, location := none, interests := [] } }
    match saveUser env s user with
    | .error m => .error m
    | .ok s' =>
      let token := c.sign user.id env.now
      .ok (s', { status := 200, body := .auth token user.id user.name user.email })

/-- The handler `app.post('/api/auth/register')`: every thrown error is answered 400. -/
def register (c : Crypto) (env : Env) (s : Store) (name email : String)
    (password : Field) : Store × Response :=
  match registerBody c env s name email password with
  | .ok r => r
  | .error m => (s, { status := 400, body := .message m })

/-- The `try` block of `app.post('/api/auth/login')`: `!user ||` short-circuits, so
`bcrypt.compare` is called only when a user was found. -/
def loginBody (c : Crypto) (env : Env) (s : Store) (email : String)
    (password : Field) : Except String (Store × Response) :=
  match findOneUser env s email with
  | .error m => .error m
  | .ok none => .ok (s, { status := 401, body := .message "Identifiants invalides" })
  | .ok (some user) =>
    match bcryptCompare c password user.password with
    | .error m => .error m
    | .ok verified =>
      if !verified then
        .ok (s, { status := 401, body := .message "Identifiants invalides" })
      else
        let token := c.sign user.id env.now
        .ok (s, { status := 200, body := .auth token user.id user.name user.email })

/-- The handler `app.post('/api/auth/login')`. -/
def login (c : Crypto) (env : Env) (s : Store) (email : String)
    (password : Field) : Store × Response :=
  match loginBody c env s email password with
  | .ok r => r
  | .error m => (s, { status := 500, body := .message m })

/-- The handler `app.get('/api/events')`. -/
def listEvents (env : Env) (s : Store) : Store × Response :=
  match findEventsPopulated env s with
  | .ok events => (s, { status := 200, body := .events events })
  | .error m => (s, { status := 500, body := .message m })

/-- The sum `event.registrations.reduce((sum, reg) => sum + reg.participants, 0)`, each
`+` being an addition of doubles. -/
def totalParticipants (event : Event) : Int :=
  event.registrations.foldl (fun sum reg => jsAdd sum reg.participants) 0

/-- The `try` block of `app.post('/api/events/:id/reservations')`. -/
def reserveBody (env : Env) (s : Store) (id : PathId) (userId : ObjectId)
    (participants : Int) : Except String (Store × Response) :=
  match findEventById env s id with
  | .error m => .error m
  | .ok none => .ok (s, { status := 404, body := .message "Événement non trouvé" })
  | .ok (some event) =>
    if jsAdd (totalParticipants event) participants > event.capacity then
      .ok (s, { status := 400, body := .message "Capacité maximale atteinte" })
    else
      let event' : Event :=
        { event with
          registrations := event.registrations ++
            [{ user := userId, date := env.now, participants := participants }] }
      match saveEvent env s event' with
      | .error m => .error m
      | .ok s' => .ok (s', { status := 200, body := .message "Réservation confirmée" })

/-- The handler `app.post('/api/events/:id/reservations')`. -/
def reserve (env : Env) (s : Store) (id : PathId) (userId : ObjectId)
    (participants : Int) : Store × Response :=
  match reserveBody env s id userId participants with
  | .ok r => r
  | .error m => (s, { status := 500, body := .message m })

/-- The handler `app.get('/api/formations')`. -/
def listFormations (env : Env) (s : Store) : Store × Response :=
  match findFormationsPopulated env s with
  | .ok formations => (s, { status := 200, body := .formations formations })
  | .error m => (s, { status := 500, body := .message m })

/-- The message of the `TypeError` thrown by `formation.students` when `formation` is
`null`. -/
def nullStudentsMessage : String :=
  "Cannot read properties of null (reading \x27students\x27)"

/-- The `try` block of `app.post('/api/formations/:id/register')`: the result of
`findById` is used without a test for `null`. -/
def enrollBody (env : Env) (s : Store) (id : PathId) (userId : ObjectId) :
    Except String (Store × Response) :=
  match findFormationById env s id with
  | .error m => .error m
  | .ok none => .error nullStudentsMessage
  | .ok (some formation) =>
    let formation' : Formation :=
      { formation with
        students := formation.students ++
          [{ user := userId, progress := 0, completed := false }] }
    match saveFormation env s formation' with
    | .error m => .error m
    | .ok s' => .ok (s', { status := 200, body := .message "Inscription confirmée" })

/-- The handler `app.post('/api/formations/:id/register')`. -/
def enroll (env : Env) (s : Store) (id : PathId) (userId : ObjectId) : Store × Response :=
  match enrollBody env s id userId with
  | .ok r => r
  | .error m => (s, { status := 500, body := .message m })

/-- The handler `app.get('/api/dashboard/stats')`. -/
def stats (env : Env) (s : Store) : Store × Response :=
  match countAll env s with
  | .ok (members, events, formations) =>
    (s, { status := 200, body := .stats members events formations 1250000 })
  | .error m => (s, { status := 500, body := .message m })

/-! ## Serialized requests -/

/-- A request to one of the seven routes. -/
inductive Request where
  | register (name email : String) (password : Field)
  | login (email : String) (password : Field)
  | listEvents
  | reserve (id : PathId) (userId : ObjectId) (participants : Int)
  | listFormations
  | enroll (id : PathId) (userId : ObjectId)
  | stats
  deriving DecidableEq, Repr

/-- The routing of one request to its handler. -/
def handle (c : Crypto) (s : Store) (er : Env × Request) : Store × Response :=
  match er.2 with
  | .register name email password => register c er.1 s name email password
  | .login email password => login c er.1 s email password
  | .listEvents => listEvents er.1 s
  | .reserve id userId participants => reserve er.1 s id userId participants
  | .listFormations => listFormations er.1 s
  | .enroll id userId => enroll er.1 s id userId
  | .stats => stats er.1 s

/-- The store after a sequence of requests handled one after another. -/
def run (c : Crypto) (s : Store) (reqs : List (Env × Request)) : Store :=
  reqs.foldl (fun s er => (handle c s er).1) s

/-! ## The chat relay -/

/-- The `readyState` of a WebSocket. -/
inductive ReadyState where
  | CONNECTING
  | OPEN
  | CLOSING
  | CLOSED
  deriving DecidableEq, Repr

/-- A WebSocket object, by identity. -/
abbrev Conn := Nat

/-- The method `Set.prototype.add` on a set kept in insertion order. -/
def setAdd (set : List Conn) (ws : Conn) : List Conn :=
  if ws ∈ set then set else set ++ [ws]

/-- The method `Set.prototype.delete`. -/
def setDelete (set : List Conn) (ws : Conn) : List Conn :=
  set.filter (fun client => client != ws)

/-- An event of the WebSocket server: a new connection, a message received on a
connection (with the `readyState` of every socket at that moment), a connection closed. -/
inductive ChatEvent where
  | connection (ws : Conn)
  | message (ws : Conn) (readyState : Conn → ReadyState) (message : String)
  | close (ws : Conn)

/-- The `ws.on('message')` callback: the `client.send(message)` calls, in order. The
comment in the source reads "to all clients"; the code skips the sender and every socket
that is not `OPEN`, and that is what is embedded. -/
def onMessage (chatClients : List Conn) (ws : Conn) (readyState : Conn → ReadyState)
    (message : String) : List (Conn × String) :=
  (chatClients.filter fun client => client != ws && readyState client == ReadyState.OPEN).map
    fun client => (client, message)

/-- One event of the relay: the new `chatClients` and the sends performed. -/
def chatStep (chatClients : List Conn) : ChatEvent → List Conn × List (Conn × String)
  | .connection ws => (setAdd chatClients ws, [])
  | .message ws readyState message => (chatClients, onMessage chatClients ws readyState message)
  | .close ws => (setDelete chatClients ws, [])

/-- The `chatClients` set after a sequence of events, from the empty set. -/
def chatRun (events : List ChatEvent) : List Conn :=
  events.foldl (fun set ev => (chatStep set ev).1) []

/-- Whether `ws` has connected and not since disconnected, read off the event sequence. -/
def connected (ws : Conn) (events : List ChatEvent) : Bool :=
  events.foldl
    (fun live ev =>
      match ev with
      | .connection w => if w = ws then true else live
      | .close w => if w = ws then false else live
      | .message _ _ _ => live)
    false

/-! ## Magnitudes -/

/-- The sum of the magnitudes of the participant counts of a list of registrations. -/
def magnitude (registrations : List Registration) : Nat :=
  (registrations.map fun r => r.participants.natAbs).sum

/-! ## Concrete data for the worked examples -/

/-- An environment in which no store call throws. -/
def quietEnv : Env :=
  { readFault := none, writeFault := none, countFault := fun _ => none, settleOrder := [],
    now := 0, freshId := 1, salt := 0 }

/-- An environment in which every store call throws `connection lost`. -/
def downEnv : Env :=
  { readFault := some "connection lost", writeFault := some "connection lost",
    countFault := fun _ => some "connection lost", settleOrder := [],
    now := 0, freshId := 1, salt := 0 }

/-- An event with capacity 10 and no registrations. -/
def gala : Event :=
  { id := 5, title := "Gala", description := "", date := 0, location := "", capacity := 10,
    price := 0, category := "", image := "", registrations := [] }

/-- A store holding only `gala`. -/
def galaStore : Store := { users := [], events := [gala], formations := [] }

/-- An event with capacity 2 and no registrations. -/
def duo : Event :=
  { id := 6, title := "Duo", description := "", date := 0, location := "", capacity := 2,
    price := 0, category := "", image := "", registrations := [] }

/-- A store holding only `duo`. -/
def duoStore : Store := { users := [], events := [duo], formations := [] }

/-- An event with capacity `2^53`, filled by one registration of `2^53` participants. -/
def brim : Event :=
  { id := 7, title := "Brim", description := "", date := 0, location := "",
    capacity := 9007199254740992, price := 0, category := "", image := "",
    registrations := [{ user := 1, date := 0, participants := 9007199254740992 }] }

/-- A store holding only `brim`. -/
def brimStore : Store := { users := [], events := [brim], formations := [] }

/-- An event with capacity 1 whose registrations `2^53 + 2`, `1`, `-(2^53 + 2)` sum to 1. -/
def drift : Event :=
  { id := 8, title := "Drift", description := "", date := 0, location := "", capacity := 1,
    price := 0, category := "", image := "",
    registrations :=
      [{ user := 1, date := 0, participants := 9007199254740994 },
        { user := 2, date := 0, participants := 1 },
        { user := 3, date := 0, participants := -9007199254740994 }] }

/-- A store holding only `drift`. -/
def driftStore : Store := { users := [], events := [drift], formations := [] }

/-- The store with no document. -/
def emptyStore : Store := { users := [], events := [], formations := [] }

/-- A stand-in for the crypto functions: the hash of a password is the password itself. -/
def toyCrypto : Crypto :=
  { hash := fun password _ => password
    compare := fun password hash => password == hash
    sign := fun userId _ => toString userId }

/-- A member whose stored hash is the one `toyCrypto` gives to `secret`. -/
def awa : User :=
  { id := 1, name := "Awa", email := "awa@example.org", password := "secret",
    role := "member", profile := { phone := none, location := none, interests := [] } }

/-- A store holding only the member `awa`. -/
def memberStore : Store := { users := [awa], events := [], formations := [] }

/-- An environment in which only the count of the events collection throws. -/
def eventsDownEnv : Env :=
  { readFault := none, writeFault := none,
    countFault := fun coll => if coll = Coll.events then some "events down" else none,
    settleOrder := [Coll.formations, Coll.events, Coll.users],
    now := 0, freshId := 1, salt := 0 }

/-! ## Lemmas on numbers -/

theorem roundDouble_of_safe (n : Int) (h : n.natAbs ≤ safeBound) : roundDouble n = n := by
  rw [roundDouble, if_pos h]

theorem jsAdd_of_safe (a b : Int) (h : a.natAbs + b.natAbs ≤ safeBound) :
    jsAdd a b = a + b :=
  roundDouble_of_safe _ (le_trans (Int.natAbs_add_le a b) h)

theorem magnitude_cons (r : Registration) (l : List Registration) :
    magnitude (r :: l) = r.participants.natAbs + magnitude l := by
  simp [magnitude]

theorem magnitude_append_singleton (l : List Registration) (r : Registration) :
    magnitude (l ++ [r]) = magnitude l + r.participants.natAbs := by
  simp [magnitude]

theorem natAbs_sum_le_magnitude (l : List Registration) :
    ((l.map Registration.participants).sum).natAbs ≤ magnitude l := by
  induction l with
  | nil => simp [magnitude]
  | cons r rs ih =>
    rw [magnitude_cons]
    simp only [List.map_cons, List.sum_cons]
    exact le_trans (Int.natAbs_add_le _ _) (Nat.add_le_add_left ih _)

theorem foldl_jsAdd_of_safe (l : List Registration) (a : Int)
    (h : a.natAbs + magnitude l ≤ safeBound) :
    l.foldl (fun sum reg => jsAdd sum reg.participants) a
      = a + (l.map Registration.participants).sum := by
  induction l generalizing a with
  | nil => simp
  | cons r rs ih =>
    rw [magnitude_cons] at h
    have hstep : jsAdd a r.participants = a + r.participants :=
      jsAdd_of_safe a r.participants (by omega)
    have hnext : (a + r.participants).natAbs + magnitude rs ≤ safeBound :=
      le_trans (Nat.add_le_add_right (Int.natAbs_add_le _ _) _) (by omega)
    simp only [List.foldl_cons, List.map_cons, List.sum_cons, hstep]
    rw [ih _ hnext, add_assoc]

theorem totalParticipants_of_safe (event : Event)
    (h : magnitude event.registrations ≤ safeBound) :
    totalParticipants event = (event.registrations.map Registration.participants).sum := by
  rw [totalParticipants, foldl_jsAdd_of_safe _ 0 (by simpa using h)]
  simp

theorem jsAdd_total_of_safe (event : Event) (participants : Int)
    (h : magnitude event.registrations + participants.natAbs ≤ safeBound) :
    jsAdd (totalParticipants event) participants
      = (event.registrations.map Registration.participants).sum + participants := by
  rw [totalParticipants_of_safe event (by omega)]
  exact jsAdd_of_safe _ _
    (le_trans (Nat.add_le_add_right (natAbs_sum_le_magnitude _) _) h)

/-! ## Lemmas on the store operations -/

theorem find_event_id {evs : List Event} {id : ObjectId} {event : Event}
    (h : evs.find? (fun e => e.id == id) = some event) : event.id = id := by
  have := List.find?_some h
  simpa using this

theorem find_replaceEvent_self (event' : Event) (evs : List Event) (event : Event)
    (h : evs.find? (fun e => e.id == event'.id) = some event) :
    (replaceEvent event' evs).find? (fun e => e.id == event'.id) = some event' := by
  induction evs with
  | nil => simp at h
  | cons e es ih =>
    by_cases he : e.id = event'.id
    · simp [replaceEvent, he]
    · have h' : es.find? (fun e => e.id == event'.id) = some event := by
        simpa [List.find?_cons, he] using h
      simp [replaceEvent, he, List.find?_cons, ih h']

theorem find_replaceEvent_other (event' : Event) (evs : List Event) (j : ObjectId)
    (h : j ≠ event'.id) :
    (replaceEvent event' evs).find? (fun e => e.id == j) = evs.find? (fun e => e.id == j) := by
  induction evs with
  | nil => simp [replaceEvent]
  | cons e es ih =>
    by_cases he : e.id = event'.id
    · have hj : ¬ e.id = j := fun hh => h (hh ▸ he)
      have hj' : ¬ event'.id = j := fun hh => h hh.symm
      simp [replaceEvent, he, List.find?_cons, hj, hj']
    · simp [replaceEvent, he, List.find?_cons, ih]

theorem length_replaceEvent (event' : Event) (evs : List Event) :
    (replaceEvent event' evs).length = evs.length := by
  induction evs with
  | nil => rfl
  | cons e es ih =>
    by_cases he : e.id = event'.id
    · simp [replaceEvent, he]
    · simp [replaceEvent, he, ih]

theorem find_after_append (evs : List Event) (id : ObjectId) (event : Event)
    (r : Registration) (hfind : evs.find? (fun e => e.id == id) = some event) :
    (replaceEvent { event with registrations := event.registrations ++ [r] } evs).find?
        (fun e => e.id == id)
      = some { event with registrations := event.registrations ++ [r] } := by
  have hid : event.id = id := find_event_id hfind
  subst hid
  exact find_replaceEvent_self { event with registrations := event.registrations ++ [r] } evs
    event hfind

theorem find_other_after_append (evs : List Event) (id j : ObjectId) (event : Event)
    (r : Registration) (hfind : evs.find? (fun e => e.id == id) = some event) (hj : j ≠ id) :
    (replaceEvent { event with registrations := event.registrations ++ [r] } evs).find?
        (fun e => e.id == j)
      = evs.find? (fun e => e.id == j) := by
  have hid : event.id = id := find_event_id hfind
  subst hid
  exact find_replaceEvent_other { event with registrations := event.registrations ++ [r] } evs
    j hj

/-! ## Lemmas on the reservation handler -/

theorem reserve_accept (env : Env) (s : Store) (id userId : ObjectId) (participants : Int)
    (event : Event) (hread : env.readFault = none) (hwrite : env.writeFault = none)
    (hfind : s.events.find? (fun e => e.id == id) = some event)
    (hfit : jsAdd (totalParticipants event) participants ≤ event.capacity) :
    reserve env s (.wellFormed id) userId participants =
      ({ s with
          events := replaceEvent
            { event with
              registrations := event.registrations ++
                [{ user := userId, date := env.now, participants := participants }] }
            s.events },
        { status := 200, body := .message "Réservation confirmée" }) := by
  simp [reserve, reserveBody, findEventById, saveEvent, hread, hwrite, hfind, not_lt.mpr hfit]

theorem reserve_reject (env : Env) (s : Store) (id userId : ObjectId) (participants : Int)
    (event : Event) (hread : env.readFault = none)
    (hfind : s.events.find? (fun e => e.id == id) = some event)
    (hover : jsAdd (totalParticipants event) participants > event.capacity) :
    reserve env s (.wellFormed id) userId participants =
      (s, { status := 400, body := .message "Capacité maximale atteinte" }) := by
  simp [reserve, reserveBody, findEventById, hread, hfind, hover]

theorem reserve_absent (env : Env) (s : Store) (id userId : ObjectId) (participants : Int)
    (hread : env.readFault = none)
    (hfind : s.events.find? (fun e => e.id == id) = none) :
    reserve env s (.wellFormed id) userId participants =
      (s, { status := 404, body := .message "Événement non trouvé" }) := by
  simp [reserve, reserveBody, findEventById, hread, hfind]

theorem reserve_malformed (env : Env) (s : Store) (raw : String) (userId : ObjectId)
    (participants : Int) :
    reserve env s (.malformed raw) userId participants =
      (s, { status := 500, body := .message (castErrorMessage raw "Event") }) := by
  simp [reserve, reserveBody, findEventById]

theorem reserve_read_fault (env : Env) (s : Store) (id userId : ObjectId) (participants : Int)
    (m : String) (hread : env.readFault = some m) :
    reserve env s (.wellFormed id) userId participants =
      (s, { status := 500, body := .message m }) := by
  simp [reserve, reserveBody, findEventById, hread]

theorem reserve_write_fault (env : Env) (s : Store) (id userId : ObjectId) (participants : Int)
    (event : Event) (m : String) (hread : env.readFault = none)
    (hwrite : env.writeFault = some m)
    (hfind : s.events.find? (fun e => e.id == id) = some event)
    (hfit : jsAdd (totalParticipants event) participants ≤ event.capacity) :
    reserve env s (.wellFormed id) userId participants =
      (s, { status := 500, body := .message m }) := by
  simp [reserve, reserveBody, findEventById, saveEvent, hread, hwrite, hfind, not_lt.mpr hfit]

theorem reserve_store_cases (env : Env) (s : Store) (id : PathId) (userId : ObjectId)
    (participants : Int) :
    (reserve env s id userId participants).1 = s ∨
    ∃ j event, id = .wellFormed j ∧ s.events.find? (fun e => e.id == j) = some event ∧
      jsAdd (totalParticipants event) participants ≤ event.capacity ∧
      (reserve env s id userId participants).1 =
        { s with
          events := replaceEvent
            { event with
              registrations := event.registrations ++
                [{ user := userId, date := env.now, participants := participants }] }
            s.events } := by
  cases id with
  | malformed raw => left; rw [reserve_malformed]
  | wellFormed j =>
    cases hread : env.readFault with
    | some m => left; rw [reserve_read_fault env s j userId participants m hread]
    | none =>
      cases hfind : s.events.find? (fun e => e.id == j) with
      | none => left; rw [reserve_absent env s j userId participants hread hfind]
      | some event =>
        by_cases hover : jsAdd (totalParticipants event) participants > event.capacity
        · left; rw [reserve_reject env s j userId participants event hread hfind hover]
        · cases hwrite : env.writeFault with
          | some m =>
            left
            rw [reserve_write_fault env s j userId participants event m hread hwrite hfind
              (not_lt.mp hover)]
          | none =>
            right
            refine ⟨j, event, rfl, hfind, not_lt.mp hover, ?_⟩
            rw [reserve_accept env s j userId participants event hread hwrite hfind
              (not_lt.mp hover)]

theorem reserve_users (env : Env) (s : Store) (id : PathId) (userId : ObjectId)
    (participants : Int) :
    (reserve env s id userId participants).1.users = s.users := by
  rcases reserve_store_cases env s id userId participants with h | ⟨_, _, _, _, _, h⟩
  · rw [h]
  · rw [h]

/-! ## The reservation handler -/

/-- C2, as stated, fails beyond the safe range: on an event with capacity `2^53` holding
one registration of `2^53` participants, the exact total with 1 more exceeds the capacity,
but `2^53 + 1` rounds to `2^53` and the reservation is accepted and appended. -/
theorem reserve_accepts_past_capacity_when_rounded :
    brimStore.events.find? (fun e => e.id == 7) = some brim ∧
    (brim.registrations.map Registration.participants).sum + 1 > brim.capacity ∧
    (reserve quietEnv brimStore (.wellFormed 7) 2 1).2 =
      { status := 200, body := .message "Réservation confirmée" } ∧
    (reserve quietEnv brimStore (.wellFormed 7) 2 1).1.events.find? (fun e => e.id == 7) =
      some { brim with
              registrations := brim.registrations ++
                [{ user := 2, date := 0, participants := 1 }] } := by
  have hfit : jsAdd (totalParticipants brim) 1 ≤ brim.capacity := by decide
  have hfind : brimStore.events.find? (fun e => e.id == 7) = some brim := by decide
  rw [reserve_accept quietEnv brimStore 7 2 1 brim rfl rfl hfind hfit]
  exact ⟨hfind, by decide, rfl, find_after_append _ _ _ _ hfind⟩

/-- C2, amended: on an existing event, when the magnitudes of the stored participants and
of the requested ones add up to at most `2^53` (so that the sums of the handler are
exact), with `total` the sum of the stored participants plus the requested ones: if
`total > capacity` the answer is 400 and the store is unchanged; otherwise the answer is
200 and the stored event is the previous one with one new entry (user, participants)
appended, capacity and earlier entries unchanged. -/
theorem reserve_postcondition (env : Env) (s : Store) (id userId : ObjectId)
    (participants : Int) (event : Event)
    (hfind : s.events.find? (fun e => e.id == id) = some event)
    (hsafe : magnitude event.registrations + participants.natAbs ≤ safeBound)
    (hread : env.readFault = none) :
    ((event.registrations.map Registration.participants).sum + participants > event.capacity →
      reserve env s (.wellFormed id) userId participants =
        (s, { status := 400, body := .message "Capacité maximale atteinte" })) ∧
    ((event.registrations.map Registration.participants).sum + participants ≤ event.capacity →
      env.writeFault = none →
      (reserve env s (.wellFormed id) userId participants).2 =
          { status := 200, body := .message "Réservation confirmée" } ∧
        (reserve env s (.wellFormed id) userId participants).1.events.find?
            (fun e => e.id == id) =
          some { event with
                  registrations := event.registrations ++
                    [{ user := userId, date := env.now, participants := participants }] } ∧
        (∀ j, j ≠ id →
          (reserve env s (.wellFormed id) userId participants).1.events.find?
              (fun e => e.id == j) =
            s.events.find? (fun e => e.id == j)) ∧
        (reserve env s (.wellFormed id) userId participants).1.events.length
          = s.events.length ∧
        (reserve env s (.wellFormed id) userId participants).1.users = s.users ∧
        (reserve env s (.wellFormed id) userId participants).1.formations = s.formations) := by
  rw [← jsAdd_total_of_safe event participants hsafe]
  refine ⟨fun hover => reserve_reject env s id userId participants event hread hfind hover, ?_⟩
  intro hfit hwrite
  rw [reserve_accept env s id userId participants event hread hwrite hfind hfit]
  refine ⟨rfl, find_after_append _ _ _ _ hfind, ?_, ?_, rfl, rfl⟩
  · intro j hj
    exact find_other_after_append _ _ _ _ _ hfind hj
  · exact length_replaceEvent _ _

theorem reserve_postcondition_witness :
    (galaStore.events.find? (fun e => e.id == 5) = some gala ∧
      magnitude gala.registrations + (11 : Int).natAbs ≤ safeBound ∧
      magnitude gala.registrations + (7 : Int).natAbs ≤ safeBound ∧
      quietEnv.readFault = none) ∧
    reserve quietEnv galaStore (.wellFormed 5) 2 11 =
      (galaStore, { status := 400, body := .message "Capacité maximale atteinte" }) ∧
    (reserve quietEnv galaStore (.wellFormed 5) 2 7).2 =
      { status := 200, body := .message "Réservation confirmée" } ∧
    (reserve quietEnv galaStore (.wellFormed 5) 2 7).1.events.find? (fun e => e.id == 5) =
      some { gala with registrations := [{ user := 2, date := 0, participants := 7 }] } :=
  ⟨⟨by decide, by decide, by decide, rfl⟩,
    (reserve_postcondition quietEnv galaStore 5 2 11 gala (by decide) (by decide) rfl).1
      (by decide),
    ((reserve_postcondition quietEnv galaStore 5 2 7 gala (by decide) (by decide) rfl).2
      (by decide) rfl).1,
    ((reserve_postcondition quietEnv galaStore 5 2 7 gala (by decide) (by decide) rfl).2
      (by decide) rfl).2.1⟩

/-- C9, as stated, fails for an id that is no `ObjectId`: it matches no event, `findById`
throws a `CastError`, and the answer is 500, not 404. -/
theorem reserve_malformed_id_is_500 :
    reserve quietEnv galaStore (.malformed "not-an-id") 1 1 =
      (galaStore, { status := 500, body := .message (castErrorMessage "not-an-id" "Event") }) ∧
    (reserve quietEnv galaStore (.malformed "not-an-id") 1 1).2.status ≠ 404 := by
  rw [reserve_malformed]
  exact ⟨rfl, by decide⟩

/-- C9, amended: for a well-formed id that matches no event, reservation is answered 404
whatever the user and the participants are, and the store is unchanged. -/
theorem reserve_not_found (env : Env) (s : Store) (id userId : ObjectId) (participants : Int)
    (hread : env.readFault = none) (habsent : ∀ e ∈ s.events, e.id ≠ id) :
    reserve env s (.wellFormed id) userId participants =
      (s, { status := 404, body := .message "Événement non trouvé" }) := by
  apply reserve_absent env s id userId participants hread
  simpa using habsent

theorem reserve_not_found_witness :
    (quietEnv.readFault = none ∧ ∀ e ∈ galaStore.events, e.id ≠ 6) ∧
    reserve quietEnv galaStore (.wellFormed 6) 2 (-3) =
      (galaStore, { status := 404, body := .message "Événement non trouvé" }) :=
  ⟨⟨rfl, by decide⟩, reserve_not_found quietEnv galaStore 6 2 (-3) rfl (by decide)⟩

theorem reserve_accept_of_safe (env : Env) (s : Store) (id userId : ObjectId)
    (participants : Int) (event : Event) (hread : env.readFault = none)
    (hwrite : env.writeFault = none)
    (hfind : s.events.find? (fun e => e.id == id) = some event)
    (hsafe : magnitude event.registrations + participants.natAbs ≤ safeBound)
    (hfit : (event.registrations.map Registration.participants).sum + participants
      ≤ event.capacity) :
    reserve env s (.wellFormed id) userId participants =
      ({ s with
          events := replaceEvent
            { event with
              registrations := event.registrations ++
                [{ user := userId, date := env.now, participants := participants }] }
            s.events },
        { status := 200, body := .message "Réservation confirmée" }) :=
  reserve_accept env s id userId participants event hread hwrite hfind
    (by rw [jsAdd_total_of_safe event participants hsafe]; exact hfit)

theorem reserve_reject_of_safe (env : Env) (s : Store) (id userId : ObjectId)
    (participants : Int) (event : Event) (hread : env.readFault = none)
    (hfind : s.events.find? (fun e => e.id == id) = some event)
    (hsafe : magnitude event.registrations + participants.natAbs ≤ safeBound)
    (hover : (event.registrations.map Registration.participants).sum + participants
      > event.capacity) :
    reserve env s (.wellFormed id) userId participants =
      (s, { status := 400, body := .message "Capacité maximale atteinte" }) :=
  reserve_reject env s id userId participants event hread hfind
    (by rw [jsAdd_total_of_safe event participants hsafe]; exact hover)

theorem reserve_keeps_capacity_of_safe (env : Env) (s : Store) (id userId : ObjectId)
    (participants : Int) (cap : Int) (room : Nat)
    (h : ∃ e, s.events.find? (fun e => e.id == id) = some e ∧ e.capacity = cap ∧
      (e.registrations.map Registration.participants).sum ≤ cap ∧
      magnitude e.registrations + participants.natAbs + room ≤ safeBound) :
    ∃ e, (reserve env s (.wellFormed id) userId participants).1.events.find?
        (fun e => e.id == id) = some e ∧
      e.capacity = cap ∧ (e.registrations.map Registration.participants).sum ≤ cap ∧
      magnitude e.registrations + room ≤ safeBound := by
  obtain ⟨e, he, hcap, hsum, hsafe⟩ := h
  rcases reserve_store_cases env s (.wellFormed id) userId participants with
    hs | ⟨j, event, hj, hfind, hfit, hs⟩
  · rw [hs]; exact ⟨e, he, hcap, hsum, by omega⟩
  · rw [hs]
    have hji : j = id := (PathId.wellFormed.inj hj).symm
    subst hji
    have hee : event = e := Option.some.inj (hfind.symm.trans he)
    subst hee
    refine ⟨_, find_after_append _ _ _ _ hfind, hcap, ?_, ?_⟩
    · rw [jsAdd_total_of_safe event participants (by omega)] at hfit
      simpa [hcap] using hfit
    · show magnitude (event.registrations ++ [_]) + room ≤ safeBound
      rw [magnitude_append_singleton]
      exact hsafe

theorem reserve_run_keeps_capacity (c : Crypto) (id : ObjectId) (cap : Int)
    (reqs : List (Env × ObjectId × Int)) (s : Store)
    (h : ∃ e, s.events.find? (fun e => e.id == id) = some e ∧ e.capacity = cap ∧
      (e.registrations.map Registration.participants).sum ≤ cap ∧
      magnitude e.registrations + (reqs.map fun r => r.2.2.natAbs).sum ≤ safeBound) :
    ∃ e, (run c s (reqs.map fun r => (r.1, Request.reserve (.wellFormed id) r.2.1 r.2.2))
        ).events.find? (fun e => e.id == id) = some e ∧
      e.capacity = cap ∧ (e.registrations.map Registration.participants).sum ≤ cap := by
  induction reqs generalizing s with
  | nil =>
    obtain ⟨e, he, hcap, hsum, _⟩ := h
    exact ⟨e, he, hcap, hsum⟩
  | cons r rest ih =>
    show ∃ e, (run c (reserve r.1 s (.wellFormed id) r.2.1 r.2.2).1
        (rest.map fun r => (r.1, Request.reserve (.wellFormed id) r.2.1 r.2.2))
        ).events.find? _ = some e ∧ _
    apply ih
    apply reserve_keeps_capacity_of_safe
    obtain ⟨e, he, hcap, hsum, hsafe⟩ := h
    refine ⟨e, he, hcap, hsum, ?_⟩
    simp only [List.map_cons, List.sum_cons] at hsafe
    omega

theorem sum_take_le (l : List Nat) (k : Nat) : (l.take k).sum ≤ l.sum := by
  induction l generalizing k with
  | nil => simp
  | cons a as ih =>
    cases k with
    | zero => simp
    | succ k => simpa using ih k

/-- C1, as stated, fails beyond the safe range: from an event with capacity 2 and no
registrations, the integer requests `-(2^53 - 1)`, `-4`, `2^53 - 1`, `7` are all accepted
(the stored sum `-(2^53 + 3)` is rounded to `-(2^53 + 4)`), and the participants of the
stored registrations then sum to 3, above the capacity. -/
theorem capacity_exceeded_after_rounded_sums :
    duoStore.events.find? (fun e => e.id == 6) = some duo ∧
    (duo.registrations.map Registration.participants).sum ≤ duo.capacity ∧
    (run toyCrypto duoStore
        ([(quietEnv, 1, -9007199254740991), (quietEnv, 2, -4),
            (quietEnv, 3, 9007199254740991), (quietEnv, 4, 7)].map
          fun r => (r.1, Request.reserve (.wellFormed 6) r.2.1 r.2.2))).events.find?
        (fun e => e.id == 6) =
      some { duo with
              registrations :=
                [{ user := 1, date := 0, participants := -9007199254740991 },
                  { user := 2, date := 0, participants := -4 },
                  { user := 3, date := 0, participants := 9007199254740991 },
                  { user := 4, date := 0, participants := 7 }] } ∧
    ¬ (([-9007199254740991, -4, 9007199254740991, 7] : List Int).sum ≤ duo.capacity) := by
  refine ⟨by decide, by decide, ?_, by decide⟩
  decide

/-- C1, amended: for an event whose stored participants sum to at most its capacity, and
a finite sequence of reservation requests on it such that the magnitudes of the stored
and of all requested participants add up to at most `2^53` (so that the sums of the
handler are exact), after every request the participants of the stored registrations
still sum to at most the capacity (which is unchanged). -/
theorem capacity_invariant_serialized (c : Crypto) (s : Store) (id : ObjectId) (event : Event)
    (hfind : s.events.find? (fun e => e.id == id) = some event)
    (hinv : (event.registrations.map Registration.participants).sum ≤ event.capacity)
    (reqs : List (Env × ObjectId × Int))
    (hsafe : magnitude event.registrations + (reqs.map fun r => r.2.2.natAbs).sum
      ≤ safeBound)
    (k : Nat) :
    ∃ event',
      (run c s ((reqs.take k).map
          fun r => (r.1, Request.reserve (.wellFormed id) r.2.1 r.2.2))).events.find?
          (fun e => e.id == id) = some event' ∧
        event'.capacity = event.capacity ∧
        (event'.registrations.map Registration.participants).sum ≤ event'.capacity := by
  have htake : ((reqs.take k).map fun r => r.2.2.natAbs).sum
      ≤ (reqs.map fun r => r.2.2.natAbs).sum := by
    rw [List.map_take]
    exact sum_take_le _ k
  obtain ⟨e, he, hcap, hsum⟩ :=
    reserve_run_keeps_capacity c id event.capacity (reqs.take k) s
      ⟨event, hfind, rfl, hinv, by omega⟩
  exact ⟨e, he, hcap, hcap ▸ hsum⟩

theorem capacity_invariant_serialized_witness :
    (galaStore.events.find? (fun e => e.id == 5) = some gala ∧
      (gala.registrations.map Registration.participants).sum ≤ gala.capacity ∧
      magnitude gala.registrations +
          (([(quietEnv, 1, 7), (quietEnv, 2, 4), (quietEnv, 3, -2), (downEnv, 4, 1),
            (quietEnv, 5, 5)] : List (Env × ObjectId × Int)).map fun r => r.2.2.natAbs).sum
        ≤ safeBound) ∧
    ∃ event',
      (run toyCrypto galaStore
          (([(quietEnv, 1, 7), (quietEnv, 2, 4), (quietEnv, 3, -2), (downEnv, 4, 1),
              (quietEnv, 5, 5)].take 5).map
            fun r => (r.1, Request.reserve (.wellFormed 5) r.2.1 r.2.2))).events.find?
          (fun e => e.id == 5) = some event' ∧
        event'.capacity = gala.capacity ∧
        (event'.registrations.map Registration.participants).sum ≤ event'.capacity :=
  ⟨⟨by decide, by decide, by decide⟩,
    capacity_invariant_serialized toyCrypto galaStore 5 gala (by decide) (by decide)
      [(quietEnv, 1, 7), (quietEnv, 2, 4), (quietEnv, 3, -2), (downEnv, 4, 1),
        (quietEnv, 5, 5)] (by decide) 5⟩

/-- C8: on an event with capacity 10 and no registrations, a reservation for 7 is accepted;
a following one for 4 is answered 400 (capacity exceeded) and changes nothing; a following
one for 3 is accepted, and the stored participants then sum to exactly 10. -/
theorem capacity_worked_example (s : Store) (id u₁ u₂ u₃ : ObjectId) (env₁ env₂ env₃ : Env)
    (event : Event) (hfind : s.events.find? (fun e => e.id == id) = some event)
    (hcap : event.capacity = 10) (hregs : event.registrations = [])
    (h₁ : env₁.readFault = none ∧ env₁.writeFault = none)
    (h₂ : env₂.readFault = none ∧ env₂.writeFault = none)
    (h₃ : env₃.readFault = none ∧ env₃.writeFault = none) :
    (reserve env₁ s (.wellFormed id) u₁ 7).2 =
      { status := 200, body := .message "Réservation confirmée" } ∧
    reserve env₂ (reserve env₁ s (.wellFormed id) u₁ 7).1 (.wellFormed id) u₂ 4 =
      ((reserve env₁ s (.wellFormed id) u₁ 7).1,
        { status := 400, body := .message "Capacité maximale atteinte" }) ∧
    (reserve env₃
        (reserve env₂ (reserve env₁ s (.wellFormed id) u₁ 7).1 (.wellFormed id) u₂ 4).1
        (.wellFormed id) u₃ 3).2 =
      { status := 200, body := .message "Réservation confirmée" } ∧
    ∃ e,
      (reserve env₃
          (reserve env₂ (reserve env₁ s (.wellFormed id) u₁ 7).1 (.wellFormed id) u₂ 4).1
          (.wellFormed id) u₃ 3).1.events.find? (fun e => e.id == id) = some e ∧
        e.capacity = 10 ∧
        e.registrations =
          [{ user := u₁, date := env₁.now, participants := 7 },
            { user := u₃, date := env₃.now, participants := 3 }] ∧
        (e.registrations.map Registration.participants).sum = 10 := by
  have key : ∃ s₁ e₁, reserve env₁ s (.wellFormed id) u₁ 7 =
        (s₁, { status := 200, body := .message "Réservation confirmée" }) ∧
      s₁.events.find? (fun e => e.id == id) = some e₁ ∧ e₁.capacity = 10 ∧
      e₁.registrations = [{ user := u₁, date := env₁.now, participants := 7 }] :=
    ⟨_, _,
      reserve_accept_of_safe env₁ s id u₁ 7 event h₁.1 h₁.2 hfind
        (by rw [hregs]; decide) (by rw [hregs, hcap]; decide),
      find_after_append s.events id event { user := u₁, date := env₁.now, participants := 7 }
        hfind,
      hcap, by simp [hregs]⟩
  obtain ⟨s₁, e₁, hr₁, hf₁, hc₁, hg₁⟩ := key
  rw [hr₁]
  rw [reserve_reject_of_safe env₂ s₁ id u₂ 4 e₁ h₂.1 hf₁
    (by rw [hg₁]; simp [magnitude, safeBound]) (by rw [hg₁, hc₁]; simp)]
  rw [reserve_accept_of_safe env₃ s₁ id u₃ 3 e₁ h₃.1 h₃.2 hf₁
    (by rw [hg₁]; simp [magnitude, safeBound]) (by rw [hg₁, hc₁]; simp)]
  refine ⟨rfl, rfl, rfl, _,
    find_after_append s₁.events id e₁ { user := u₃, date := env₃.now, participants := 3 } hf₁,
    hc₁, ?_, ?_⟩
  · simp [hg₁]
  · simp [hg₁]

theorem capacity_worked_example_witness :
    (galaStore.events.find? (fun e => e.id == 5) = some gala ∧ gala.capacity = 10 ∧
      gala.registrations = [] ∧ quietEnv.readFault = none ∧ quietEnv.writeFault = none) ∧
    (reserve quietEnv galaStore (.wellFormed 5) 1 7).2 =
      { status := 200, body := .message "Réservation confirmée" } ∧
    reserve quietEnv (reserve quietEnv galaStore (.wellFormed 5) 1 7).1 (.wellFormed 5) 2 4 =
      ((reserve quietEnv galaStore (.wellFormed 5) 1 7).1,
        { status := 400, body := .message "Capacité maximale atteinte" }) ∧
    (reserve quietEnv
        (reserve quietEnv (reserve quietEnv galaStore (.wellFormed 5) 1 7).1
          (.wellFormed 5) 2 4).1 (.wellFormed 5) 3 3).2 =
      { status := 200, body := .message "Réservation confirmée" } ∧
    ∃ e,
      (reserve quietEnv
          (reserve quietEnv (reserve quietEnv galaStore (.wellFormed 5) 1 7).1
            (.wellFormed 5) 2 4).1 (.wellFormed 5) 3 3).1.events.find?
          (fun e => e.id == 5) = some e ∧
        e.capacity = 10 ∧
        e.registrations =
          [{ user := 1, date := quietEnv.now, participants := 7 },
            { user := 3, date := quietEnv.now, participants := 3 }] ∧
        (e.registrations.map Registration.participants).sum = 10 :=
  ⟨⟨by decide, rfl, rfl, rfl, rfl⟩,
    capacity_worked_example galaStore 5 1 2 3 quietEnv quietEnv quietEnv gala (by decide)
      rfl rfl ⟨rfl, rfl⟩ ⟨rfl, rfl⟩ ⟨rfl, rfl⟩⟩

/-- C10, as stated, fails beyond the safe range: the stored participants `2^53 + 2`, `1`,
`-(2^53 + 2)` (each of them a double) sum to 1, the capacity, but the handler computes 2
(`2^53 + 3` is rounded to `2^53 + 4`) and refuses a reservation for 0 participants. -/
theorem reserve_zero_refused_after_rounded_sum :
    driftStore.events.find? (fun e => e.id == 8) = some drift ∧
    (∀ r ∈ drift.registrations, roundDouble r.participants = r.participants) ∧
    (drift.registrations.map Registration.participants).sum ≤ drift.capacity ∧
    (0 : Int) ≤ 0 ∧
    reserve quietEnv driftStore (.wellFormed 8) 4 0 =
      (driftStore, { status := 400, body := .message "Capacité maximale atteinte" }) := by
  refine ⟨by decide, by decide, by decide, le_refl 0, ?_⟩
  exact reserve_reject quietEnv driftStore 8 4 0 drift rfl (by decide) (by decide)

/-- C10, amended: there is no lower bound on participants: on an existing event within
capacity, when the magnitudes of the stored and requested participants add up to at most
`2^53`, a reservation with `participants ≤ 0` is accepted and appended; with
`participants < 0` the stored total strictly decreases, and every later request (within
the same bound) that would have been refused before it but fits the lowered total is
accepted after it. -/
theorem reserve_nonpositive_accepted (env : Env) (s : Store) (id userId : ObjectId)
    (participants : Int) (event : Event)
    (hfind : s.events.find? (fun e => e.id == id) = some event)
    (hinv : (event.registrations.map Registration.participants).sum ≤ event.capacity)
    (hsafe : magnitude event.registrations + participants.natAbs ≤ safeBound)
    (hp : participants ≤ 0)
    (hread : env.readFault = none) (hwrite : env.writeFault = none) :
    (reserve env s (.wellFormed id) userId participants).2 =
      { status := 200, body := .message "Réservation confirmée" } ∧
    (∃ e, (reserve env s (.wellFormed id) userId participants).1.events.find?
        (fun e => e.id == id) = some e ∧
      e.capacity = event.capacity ∧
      e.registrations = event.registrations ++
        [{ user := userId, date := env.now, participants := participants }] ∧
      (e.registrations.map Registration.participants).sum =
        (event.registrations.map Registration.participants).sum + participants ∧
      (participants < 0 →
        (e.registrations.map Registration.participants).sum <
          (event.registrations.map Registration.participants).sum)) ∧
    (∀ (env' : Env) (userId' : ObjectId) (q : Int),
      env'.readFault = none → env'.writeFault = none →
      magnitude event.registrations + participants.natAbs + q.natAbs ≤ safeBound →
      (event.registrations.map Registration.participants).sum + q > event.capacity →
      (event.registrations.map Registration.participants).sum + participants + q
        ≤ event.capacity →
      (reserve env' s (.wellFormed id) userId' q).2 =
          { status := 400, body := .message "Capacité maximale atteinte" } ∧
        (reserve env' (reserve env s (.wellFormed id) userId participants).1
          (.wellFormed id) userId' q).2 =
          { status := 200, body := .message "Réservation confirmée" }) := by
  have a := reserve_accept_of_safe env s id userId participants event hread hwrite hfind hsafe
    (by omega)
  have f := find_after_append s.events id event
    { user := userId, date := env.now, participants := participants } hfind
  rw [a]
  refine ⟨rfl, ⟨_, f, rfl, rfl, by simp, fun hneg => by simp; omega⟩, ?_⟩
  intro env' userId' q hread' hwrite' hsafe' hover hfits
  constructor
  · rw [reserve_reject_of_safe env' s id userId' q event hread' hfind (by omega) hover]
  · rw [reserve_accept_of_safe env' _ id userId' q _ hread' hwrite' f
      (by
        show magnitude (event.registrations ++ [_]) + q.natAbs ≤ safeBound
        rw [magnitude_append_singleton]
        exact hsafe')
      (by simpa using hfits)]

theorem reserve_nonpositive_accepted_witness :
    (galaStore.events.find? (fun e => e.id == 5) = some gala ∧
      (gala.registrations.map Registration.participants).sum ≤ gala.capacity ∧
      magnitude gala.registrations + (-4 : Int).natAbs ≤ safeBound ∧
      (-4 : Int) ≤ 0 ∧ quietEnv.readFault = none ∧ quietEnv.writeFault = none) ∧
    (reserve quietEnv galaStore (.wellFormed 5) 1 (-4)).2 =
      { status := 200, body := .message "Réservation confirmée" } ∧
    (reserve quietEnv galaStore (.wellFormed 5) 2 13).2 =
      { status := 400, body := .message "Capacité maximale atteinte" } ∧
    (reserve quietEnv (reserve quietEnv galaStore (.wellFormed 5) 1 (-4)).1
        (.wellFormed 5) 2 13).2 =
      { status := 200, body := .message "Réservation confirmée" } :=
  ⟨⟨by decide, by decide, by decide, by decide, rfl, rfl⟩,
    (reserve_nonpositive_accepted quietEnv galaStore 5 1 (-4) gala (by decide) (by decide)
      (by decide) (by decide) rfl rfl).1,
    ((reserve_nonpositive_accepted quietEnv galaStore 5 1 (-4) gala (by decide) (by decide)
      (by decide) (by decide) rfl rfl).2.2 quietEnv 2 13 rfl rfl (by decide) (by decide)
      (by decide)).1,
    ((reserve_nonpositive_accepted quietEnv galaStore 5 1 (-4) gala (by decide) (by decide)
      (by decide) (by decide) rfl rfl).2.2 quietEnv 2 13 rfl rfl (by decide) (by decide)
      (by decide)).2⟩

/-! ## Lemmas on the other handlers -/

theorem register_fault (c : Crypto) (env : Env) (s : Store) (name email password m : String)
    (hwrite : env.writeFault = some m) :
    register c env s name email (.str password) =
      (s, { status := 400, body := .message m }) := by
  simp [register, registerBody, bcryptHash, saveUser, hwrite]

theorem register_not_string (c : Crypto) (env : Env) (s : Store) (name email : String)
    (password : Field) (hp : ∀ value, password ≠ .str value) :
    register c env s name email password =
      (s, { status := 400,
            body := .message ("Illegal arguments: " ++ password.typeof ++ ", number") }) := by
  cases password with
  | str value => exact absurd rfl (hp value)
  | absent => simp [register, registerBody, bcryptHash]
  | other typeName => simp [register, registerBody, bcryptHash]

theorem register_duplicate_email (c : Crypto) (env : Env) (s : Store)
    (name email : String) (password : Field)
    (hdup : s.users.any (fun u => u.email == email) = true) :
    (register c env s name email password).1 = s ∧
      (register c env s name email password).2.status = 400 ∧
      ∃ m, (register c env s name email password).2.body = .message m := by
  cases password with
  | absent => rw [register_not_string _ _ _ _ _ _ (by simp)]; exact ⟨rfl, rfl, _, rfl⟩
  | other typeName => rw [register_not_string _ _ _ _ _ _ (by simp)]; exact ⟨rfl, rfl, _, rfl⟩
  | str password =>
    cases hwrite : env.writeFault with
    | some m => simp [register, registerBody, bcryptHash, saveUser, hwrite]
    | none =>
      by_cases hid : s.users.any (fun u => u.id == env.freshId) = true
      · simp only [register, registerBody, bcryptHash, saveUser, hwrite, hid]; simp
      · simp only [register, registerBody, bcryptHash, saveUser, hwrite, hid, hdup]; simp

theorem register_store_cases (c : Crypto) (env : Env) (s : Store)
    (name email : String) (password : Field) :
    ((register c env s name email password).1 = s ∧
      (register c env s name email password).2.status = 400) ∨
    (s.users.any (fun u => u.email == email) = false ∧
      ∃ pw, password = .str pw ∧
        register c env s name email password =
          ({ s with
              users := s.users ++
                [{ id := env.freshId, name := name, email := email,
                   password := c.hash pw env.salt, role := "member",
                   profile := { phone := none, location := none, interests := [] } }] },
            { status := 200,
              body := .auth (c.sign env.freshId env.now) env.freshId name email })) := by
  cases password with
  | absent => left; rw [register_not_string _ _ _ _ _ _ (by simp)]; exact ⟨rfl, rfl⟩
  | other typeName => left; rw [register_not_string _ _ _ _ _ _ (by simp)]; exact ⟨rfl, rfl⟩
  | str pw =>
    cases hwrite : env.writeFault with
    | some m => left; simp [register, registerBody, bcryptHash, saveUser, hwrite]
    | none =>
      by_cases hid : s.users.any (fun u => u.id == env.freshId) = true
      · left; simp only [register, registerBody, bcryptHash, saveUser, hwrite, hid]; simp
      · by_cases hdup : s.users.any (fun u => u.email == email) = true
        · left
          simp only [register, registerBody, bcryptHash, saveUser, hwrite, hid, hdup]; simp
        · right
          refine ⟨by simpa using hdup, pw, rfl, ?_⟩
          simp only [register, registerBody, bcryptHash, saveUser, hwrite, hid, hdup]; simp

theorem login_read_fault (c : Crypto) (env : Env) (s : Store) (email : String)
    (password : Field) (m : String) (hread : env.readFault = some m) :
    login c env s email password = (s, { status := 500, body := .message m }) := by
  simp [login, loginBody, findOneUser, hread]

theorem login_unknown (c : Crypto) (env : Env) (s : Store) (email : String)
    (password : Field) (hread : env.readFault = none)
    (hfind : s.users.find? (fun u => u.email == email) = none) :
    login c env s email password =
      (s, { status := 401, body := .message "Identifiants invalides" }) := by
  simp [login, loginBody, findOneUser, hread, hfind]

theorem login_not_string (c : Crypto) (env : Env) (s : Store) (email : String)
    (password : Field) (user : User) (hp : ∀ value, password ≠ .str value)
    (hread : env.readFault = none)
    (hfind : s.users.find? (fun u => u.email == email) = some user) :
    login c env s email password =
      (s, { status := 500,
            body := .message ("Illegal arguments: " ++ password.typeof ++ ", string") }) := by
  cases password with
  | str value => exact absurd rfl (hp value)
  | absent => simp [login, loginBody, findOneUser, bcryptCompare, hread, hfind]
  | other typeName => simp [login, loginBody, findOneUser, bcryptCompare, hread, hfind]

theorem login_wrong_password (c : Crypto) (env : Env) (s : Store) (email password : String)
    (user : User) (hread : env.readFault = none)
    (hfind : s.users.find? (fun u => u.email == email) = some user)
    (hwrong : c.compare password user.password = false) :
    login c env s email (.str password) =
      (s, { status := 401, body := .message "Identifiants invalides" }) := by
  simp [login, loginBody, findOneUser, bcryptCompare, hread, hfind, hwrong]

theorem login_accept (c : Crypto) (env : Env) (s : Store) (email password : String)
    (user : User) (hread : env.readFault = none)
    (hfind : s.users.find? (fun u => u.email == email) = some user)
    (hright : c.compare password user.password = true) :
    login c env s email (.str password) =
      (s, { status := 200,
            body := .auth (c.sign user.id env.now) user.id user.name user.email }) := by
  simp [login, loginBody, findOneUser, bcryptCompare, hread, hfind, hright]

theorem login_store (c : Crypto) (env : Env) (s : Store) (email : String)
    (password : Field) : (login c env s email password).1 = s := by
  cases hread : env.readFault with
  | some m => rw [login_read_fault c env s email password m hread]
  | none =>
    cases hfind : s.users.find? (fun u => u.email == email) with
    | none => rw [login_unknown c env s email password hread hfind]
    | some user =>
      cases password with
      | absent => rw [login_not_string c env s email _ user (by simp) hread hfind]
      | other typeName => rw [login_not_string c env s email _ user (by simp) hread hfind]
      | str password =>
        cases hpw : c.compare password user.password with
        | false => rw [login_wrong_password c env s email password user hread hfind hpw]
        | true => rw [login_accept c env s email password user hread hfind hpw]

theorem listEvents_store (env : Env) (s : Store) : (listEvents env s).1 = s := by
  simp only [listEvents]; split <;> rfl

theorem listFormations_store (env : Env) (s : Store) : (listFormations env s).1 = s := by
  simp only [listFormations]; split <;> rfl

theorem stats_store (env : Env) (s : Store) : (stats env s).1 = s := by
  simp only [stats]; split <;> rfl

theorem enroll_malformed (env : Env) (s : Store) (raw : String) (userId : ObjectId) :
    enroll env s (.malformed raw) userId =
      (s, { status := 500, body := .message (castErrorMessage raw "Formation") }) := by
  simp [enroll, enrollBody, findFormationById]

theorem enroll_read_fault (env : Env) (s : Store) (id userId : ObjectId) (m : String)
    (hread : env.readFault = some m) :
    enroll env s (.wellFormed id) userId = (s, { status := 500, body := .message m }) := by
  simp [enroll, enrollBody, findFormationById, hread]

theorem enroll_absent (env : Env) (s : Store) (id userId : ObjectId)
    (hread : env.readFault = none)
    (hfind : s.formations.find? (fun f => f.id == id) = none) :
    enroll env s (.wellFormed id) userId =
      (s, { status := 500, body := .message nullStudentsMessage }) := by
  simp [enroll, enrollBody, findFormationById, hread, hfind]

theorem enroll_write_fault (env : Env) (s : Store) (id userId : ObjectId)
    (formation : Formation) (m : String) (hread : env.readFault = none)
    (hwrite : env.writeFault = some m)
    (hfind : s.formations.find? (fun f => f.id == id) = some formation) :
    enroll env s (.wellFormed id) userId = (s, { status := 500, body := .message m }) := by
  simp [enroll, enrollBody, findFormationById, saveFormation, hread, hwrite, hfind]

theorem enroll_accept (env : Env) (s : Store) (id userId : ObjectId)
    (formation : Formation) (hread : env.readFault = none) (hwrite : env.writeFault = none)
    (hfind : s.formations.find? (fun f => f.id == id) = some formation) :
    enroll env s (.wellFormed id) userId =
      ({ s with
          formations := replaceFormation
            { formation with
              students := formation.students ++
                [{ user := userId, progress := 0, completed := false }] }
            s.formations },
        { status := 200, body := .message "Inscription confirmée" }) := by
  simp [enroll, enrollBody, findFormationById, saveFormation, hread, hwrite, hfind]

theorem enroll_users (env : Env) (s : Store) (id : PathId) (userId : ObjectId) :
    (enroll env s id userId).1.users = s.users := by
  cases id with
  | malformed raw => rw [enroll_malformed]
  | wellFormed id =>
    cases hread : env.readFault with
    | some m => rw [enroll_read_fault env s id userId m hread]
    | none =>
      cases hfind : s.formations.find? (fun f => f.id == id) with
      | none => rw [enroll_absent env s id userId hread hfind]
      | some formation =>
        cases hwrite : env.writeFault with
        | some m => rw [enroll_write_fault env s id userId formation m hread hwrite hfind]
        | none => rw [enroll_accept env s id userId formation hread hwrite hfind]

/-! ## Authentication -/

/-- C5, as stated, fails for a request without a password: for an unknown email `!user`
short-circuits and the answer is 401, while for a known email `bcrypt.compare` throws and
the answer is 500, so the two responses differ. -/
theorem login_discloses_without_password :
    (∀ u ∈ memberStore.users, u.email ≠ "nobody@example.org") ∧
    memberStore.users.find? (fun u => u.email == "awa@example.org") = some awa ∧
    login toyCrypto quietEnv memberStore "nobody@example.org" .absent =
      (memberStore, { status := 401, body := .message "Identifiants invalides" }) ∧
    login toyCrypto quietEnv memberStore "awa@example.org" .absent =
      (memberStore,
        { status := 500, body := .message "Illegal arguments: undefined, string" }) ∧
    login toyCrypto quietEnv memberStore "nobody@example.org" .absent ≠
      login toyCrypto quietEnv memberStore "awa@example.org" .absent := by
  have h₁ := login_unknown toyCrypto quietEnv memberStore "nobody@example.org" .absent rfl
    (by decide)
  have h₂ : login toyCrypto quietEnv memberStore "awa@example.org" .absent =
      (memberStore,
        { status := 500, body := .message "Illegal arguments: undefined, string" }) :=
    login_not_string toyCrypto quietEnv memberStore "awa@example.org" .absent awa (by simp)
      rfl (by decide)
  refine ⟨by decide, by decide, h₁, h₂, ?_⟩
  rw [h₁, h₂]
  intro h
  have hstatus := congrArg (fun r => r.2.status) h
  exact absurd hstatus (by decide)

/-- C5, amended: for login requests that carry a password string, a login whose email
matches no user and a login whose email matches a user but whose password does not verify
against the stored hash get the same response (401, the same body): the response does not
tell whether the email exists. -/
theorem login_non_disclosure (c : Crypto) (s : Store) (env₁ env₂ : Env)
    (email₁ password₁ email₂ password₂ : String) (user : User)
    (hread₁ : env₁.readFault = none) (hread₂ : env₂.readFault = none)
    (hnone : ∀ u ∈ s.users, u.email ≠ email₁)
    (hsome : s.users.find? (fun u => u.email == email₂) = some user)
    (hwrong : c.compare password₂ user.password = false) :
    login c env₁ s email₁ (.str password₁) = login c env₂ s email₂ (.str password₂) ∧
    login c env₁ s email₁ (.str password₁) =
      (s, { status := 401, body := .message "Identifiants invalides" }) := by
  have h₁ := login_unknown c env₁ s email₁ (.str password₁) hread₁ (by simpa using hnone)
  have h₂ := login_wrong_password c env₂ s email₂ password₂ user hread₂ hsome hwrong
  exact ⟨h₁.trans h₂.symm, h₁⟩

theorem login_non_disclosure_witness :
    (quietEnv.readFault = none ∧ (∀ u ∈ memberStore.users, u.email ≠ "nobody@example.org") ∧
      memberStore.users.find? (fun u => u.email == "awa@example.org") = some awa ∧
      toyCrypto.compare "guess" awa.password = false) ∧
    login toyCrypto quietEnv memberStore "nobody@example.org" (.str "guess") =
      login toyCrypto quietEnv memberStore "awa@example.org" (.str "guess") ∧
    login toyCrypto quietEnv memberStore "nobody@example.org" (.str "guess") =
      (memberStore, { status := 401, body := .message "Identifiants invalides" }) :=
  ⟨⟨rfl, by decide, by decide, by decide⟩,
    login_non_disclosure toyCrypto memberStore quietEnv quietEnv "nobody@example.org" "guess"
      "awa@example.org" "guess" awa rfl rfl (by decide) (by decide) (by decide)⟩

theorem users_after_handle (c : Crypto) (s : Store) (er : Env × Request) :
    (handle c s er).1.users = s.users ∨ ∃ u, (handle c s er).1.users = s.users ++ [u] := by
  obtain ⟨env, r⟩ := er
  cases r with
  | register name email password =>
    rcases register_store_cases c env s name email password with ⟨h, _⟩ | ⟨_, pw, _, h⟩
    · left; show (register c env s name email password).1.users = _; rw [h]
    · right
      refine ⟨{ id := env.freshId, name := name, email := email,
                password := c.hash pw env.salt, role := "member",
                profile := { phone := none, location := none, interests := [] } }, ?_⟩
      show (register c env s name email password).1.users = _
      rw [h]
  | login email password =>
    left; show (login c env s email password).1.users = _; rw [login_store]
  | listEvents => left; show (listEvents env s).1.users = _; rw [listEvents_store]
  | reserve id userId participants => left; exact reserve_users env s id userId participants
  | listFormations =>
    left; show (listFormations env s).1.users = _; rw [listFormations_store]
  | enroll id userId => left; exact enroll_users env s id userId
  | stats => left; show (stats env s).1.users = _; rw [stats_store]

theorem run_keeps_first_user (c : Crypto) (reqs : List (Env × Request)) (s : Store)
    (email : String) (user : User)
    (h : s.users.find? (fun u => u.email == email) = some user) :
    (run c s reqs).users.find? (fun u => u.email == email) = some user := by
  induction reqs generalizing s with
  | nil => exact h
  | cons er rest ih =>
    show (run c (handle c s er).1 rest).users.find? _ = some user
    apply ih
    rcases users_after_handle c s er with hu | ⟨u, hu⟩
    · rw [hu]; exact h
    · rw [hu, List.find?_append, h]; rfl

/-- C6: once a user with email `e` was created by a successful registration, after any
later requests every registration with email `e` is answered 400 and adds no user, and a
login with `e` and the original password succeeds with a token and the summary
(id, name, email) of that user; the store enforces the unique index on `email`, and a
password is assumed to verify against its own hash. -/
theorem register_then_duplicate_and_login (c : Crypto)
    (hverify : ∀ password salt, c.compare password (c.hash password salt) = true)
    (s : Store) (env₀ : Env) (name e password : String)
    (hreg : (register c env₀ s name e (.str password)).2.status = 200)
    (later : List (Env × Request)) :
    (∀ (env : Env) (name' : String) (password' : Field),
      (register c env (run c (register c env₀ s name e (.str password)).1 later)
          name' e password').1
          = run c (register c env₀ s name e (.str password)).1 later ∧
        (register c env (run c (register c env₀ s name e (.str password)).1 later)
          name' e password').2.status = 400 ∧
        ∃ m, (register c env (run c (register c env₀ s name e (.str password)).1 later)
          name' e password').2.body = .message m) ∧
    (∀ env : Env, env.readFault = none →
      login c env (run c (register c env₀ s name e (.str password)).1 later) e
          (.str password) =
        (run c (register c env₀ s name e (.str password)).1 later,
          { status := 200,
            body := .auth (c.sign env₀.freshId env.now) env₀.freshId name e })) := by
  rcases register_store_cases c env₀ s name e (.str password) with
    ⟨_, h400⟩ | ⟨hfresh, pw, hpw, hs⟩
  · rw [h400] at hreg; exact absurd hreg (by decide)
  · have hpw' : pw = password := (Field.str.inj hpw).symm
    subst hpw'
    have hfirst : (register c env₀ s name e (.str pw)).1.users.find?
        (fun u => u.email == e) =
        some { id := env₀.freshId, name := name, email := e,
               password := c.hash pw env₀.salt, role := "member",
               profile := { phone := none, location := none, interests := [] } } := by
      rw [hs]
      have hnone : s.users.find? (fun u => u.email == e) = none := by
        simpa using hfresh
      show (s.users ++ [_]).find? _ = _
      rw [List.find?_append, hnone]
      simp
    have hrun := run_keeps_first_user c later _ e _ hfirst
    constructor
    · intro env name' password'
      apply register_duplicate_email
      rw [List.any_eq_true]
      exact ⟨_, List.mem_of_find?_eq_some hrun, by simp⟩
    · intro env hread
      exact login_accept c env _ e pw _ hread hrun (hverify pw env₀.salt)

theorem register_then_duplicate_and_login_witness :
    ((∀ password salt, toyCrypto.compare password (toyCrypto.hash password salt) = true) ∧
      (register toyCrypto quietEnv emptyStore "Awa" "awa@example.org"
        (.str "secret")).2.status = 200) ∧
    (register toyCrypto quietEnv
        (run toyCrypto (register toyCrypto quietEnv emptyStore "Awa" "awa@example.org"
          (.str "secret")).1
          [(quietEnv, Request.stats), (downEnv, Request.login "a" (.str "b"))])
        "Eve" "awa@example.org" (.str "other")).2.status = 400 ∧
    login toyCrypto quietEnv
        (run toyCrypto (register toyCrypto quietEnv emptyStore "Awa" "awa@example.org"
          (.str "secret")).1
          [(quietEnv, Request.stats), (downEnv, Request.login "a" (.str "b"))])
        "awa@example.org" (.str "secret") =
      (run toyCrypto (register toyCrypto quietEnv emptyStore "Awa" "awa@example.org"
          (.str "secret")).1
          [(quietEnv, Request.stats), (downEnv, Request.login "a" (.str "b"))],
        { status := 200,
          body := .auth (toyCrypto.sign 1 0) 1 "Awa" "awa@example.org" }) :=
  ⟨⟨fun password _ => by simp [toyCrypto], by decide⟩,
    ((register_then_duplicate_and_login toyCrypto (fun password _ => by simp [toyCrypto])
      emptyStore quietEnv "Awa" "awa@example.org" "secret" (by decide)
      [(quietEnv, Request.stats), (downEnv, Request.login "a" (.str "b"))]).1
        quietEnv "Eve" (.str "other")).2.1,
    (register_then_duplicate_and_login toyCrypto (fun password _ => by simp [toyCrypto])
      emptyStore quietEnv "Awa" "awa@example.org" "secret" (by decide)
      [(quietEnv, Request.stats), (downEnv, Request.login "a" (.str "b"))]).2 quietEnv rfl⟩

/-! ## Enrollment and store failures -/

/-- C3: enrollment in a formation that is not in the store: `findById` gives `null`, the
handler reads `formation.students` of it, and the `TypeError` is answered 500 (not 404);
the store is unchanged. An id that is no `ObjectId` is answered 500 as well. -/
theorem enroll_missing_formation_is_500 :
    ∀ id userId : ObjectId,
      enroll quietEnv emptyStore (.wellFormed id) userId =
          (emptyStore, { status := 500, body := .message nullStudentsMessage }) ∧
        (enroll quietEnv emptyStore (.wellFormed id) userId).2.status ≠ 404 ∧
        ∀ raw : String, (enroll quietEnv emptyStore (.malformed raw) userId).2.status = 500 := by
  intro id userId
  rw [enroll_absent quietEnv emptyStore id userId rfl rfl]
  refine ⟨rfl, by decide, ?_⟩
  intro raw
  rw [enroll_malformed]

/-- C7, as stated, fails for registration: a store failure of `user.save()` that is no
duplicate is answered 400, not 500. -/
theorem register_store_failure_is_400 :
    downEnv.writeFault = some "connection lost" ∧
    register toyCrypto downEnv emptyStore "Awa" "awa@example.org" (.str "secret") =
      (emptyStore, { status := 400, body := .message "connection lost" }) ∧
    (register toyCrypto downEnv emptyStore "Awa" "awa@example.org"
      (.str "secret")).2.status ≠ 500 := by
  refine ⟨rfl, ?_⟩
  rw [register_fault toyCrypto downEnv emptyStore "Awa" "awa@example.org" "secret"
    "connection lost" rfl]
  exact ⟨rfl, by decide⟩

theorem countAll_fault (env : Env) (s : Store) (coll : Coll) (m : String)
    (h : env.countFault coll = some m) :
    ∃ m' coll', env.countFault coll' = some m' ∧ countAll env s = .error m' := by
  have hmem : coll ∈ env.settleOrder ++ [Coll.users, Coll.events, Coll.formations] := by
    cases coll <;> simp
  have hin : m ∈ (env.settleOrder ++ [Coll.users, Coll.events, Coll.formations]).filterMap
      env.countFault := List.mem_filterMap.mpr ⟨coll, hmem, h⟩
  unfold countAll
  cases hl : (env.settleOrder ++ [Coll.users, Coll.events, Coll.formations]).filterMap
      env.countFault with
  | nil => rw [hl] at hin; simp at hin
  | cons m' rest =>
    have hm' : m' ∈ (env.settleOrder ++ [Coll.users, Coll.events, Coll.formations]).filterMap
        env.countFault := by rw [hl]; simp
    obtain ⟨coll', _, hc⟩ := List.mem_filterMap.mp hm'
    exact ⟨m', coll', hc, rfl⟩

/-- C7, amended: when a store call of a request throws with message `m`, every route but
registration answers 500 carrying `m` and leaves the store unchanged (for the statistics,
the message is that of the first count query to reject); registration answers 400
carrying `m`. The `save()` of a reservation is reached when the capacity test of the
handler passes. -/
theorem store_failure_responses (c : Crypto) (env : Env) (s : Store) (m : String) :
    (env.writeFault = some m → ∀ name email password : String,
      register c env s name email (.str password) =
        (s, { status := 400, body := .message m })) ∧
    (env.readFault = some m →
      (∀ (email : String) (password : Field),
        login c env s email password = (s, { status := 500, body := .message m })) ∧
      listEvents env s = (s, { status := 500, body := .message m }) ∧
      (∀ (id userId : ObjectId) (participants : Int),
        reserve env s (.wellFormed id) userId participants =
          (s, { status := 500, body := .message m })) ∧
      listFormations env s = (s, { status := 500, body := .message m }) ∧
      (∀ id userId : ObjectId,
        enroll env s (.wellFormed id) userId =
          (s, { status := 500, body := .message m }))) ∧
    (env.readFault = none → env.writeFault = some m →
      (∀ (id userId : ObjectId) (participants : Int) (event : Event),
        s.events.find? (fun e => e.id == id) = some event →
        jsAdd (totalParticipants event) participants ≤ event.capacity →
        reserve env s (.wellFormed id) userId participants =
          (s, { status := 500, body := .message m })) ∧
      (∀ (id userId : ObjectId) (participants : Int) (event : Event),
        s.events.find? (fun e => e.id == id) = some event →
        magnitude event.registrations + participants.natAbs ≤ safeBound →
        (event.registrations.map Registration.participants).sum + participants
          ≤ event.capacity →
        reserve env s (.wellFormed id) userId participants =
          (s, { status := 500, body := .message m })) ∧
      (∀ (id userId : ObjectId) (formation : Formation),
        s.formations.find? (fun f => f.id == id) = some formation →
        enroll env s (.wellFormed id) userId =
          (s, { status := 500, body := .message m }))) ∧
    ((∃ coll, env.countFault coll = some m) →
      ∃ m' coll', env.countFault coll' = some m' ∧
        stats env s = (s, { status := 500, body := .message m' })) := by
  refine ⟨fun hwrite name email password => register_fault c env s name email password m hwrite,
    fun hread => ⟨fun email password => login_read_fault c env s email password m hread,
      by simp [listEvents, findEventsPopulated, hread],
      fun id userId participants => reserve_read_fault env s id userId participants m hread,
      by simp [listFormations, findFormationsPopulated, hread],
      fun id userId => enroll_read_fault env s id userId m hread⟩,
    fun hread hwrite => ⟨fun id userId participants event hfind hfit =>
        reserve_write_fault env s id userId participants event m hread hwrite hfind hfit,
      fun id userId participants event hfind hsafe hfit =>
        reserve_write_fault env s id userId participants event m hread hwrite hfind
          (by rw [jsAdd_total_of_safe event participants hsafe]; exact hfit),
      fun id userId formation hfind =>
        enroll_write_fault env s id userId formation m hread hwrite hfind⟩,
    ?_⟩
  rintro ⟨coll, hcoll⟩
  obtain ⟨m', coll', hc, hall⟩ := countAll_fault env s coll m hcoll
  exact ⟨m', coll', hc, by simp [stats, hall]⟩

theorem store_failure_responses_witness :
    (downEnv.writeFault = some "connection lost" ∧
      downEnv.readFault = some "connection lost") ∧
    register toyCrypto downEnv galaStore "Awa" "awa@example.org" (.str "secret") =
      (galaStore, { status := 400, body := .message "connection lost" }) ∧
    login toyCrypto downEnv galaStore "awa@example.org" (.str "secret") =
      (galaStore, { status := 500, body := .message "connection lost" }) ∧
    reserve downEnv galaStore (.wellFormed 5) 1 2 =
      (galaStore, { status := 500, body := .message "connection lost" }) ∧
    (∃ m' coll', eventsDownEnv.countFault coll' = some m' ∧
      stats eventsDownEnv galaStore = (galaStore, { status := 500, body := .message m' })) :=
  ⟨⟨rfl, rfl⟩,
    (store_failure_responses toyCrypto downEnv galaStore "connection lost").1 rfl
      "Awa" "awa@example.org" "secret",
    ((store_failure_responses toyCrypto downEnv galaStore "connection lost").2.1 rfl).1
      "awa@example.org" (.str "secret"),
    ((store_failure_responses toyCrypto downEnv galaStore "connection lost").2.1 rfl).2.2.1
      5 1 2,
    (store_failure_responses toyCrypto eventsDownEnv galaStore "events down").2.2.2
      ⟨Coll.events, rfl⟩⟩

/-! ## The chat relay -/

theorem mem_setAdd (set : List Conn) (ws c : Conn) :
    c ∈ setAdd set ws ↔ c ∈ set ∨ c = ws := by
  unfold setAdd
  split
  · constructor
    · exact Or.inl
    · rintro (h | h)
      · exact h
      · subst h; assumption
  · simp

theorem mem_setDelete (set : List Conn) (ws c : Conn) :
    c ∈ setDelete set ws ↔ c ∈ set ∧ c ≠ ws := by
  simp [setDelete]

theorem nodup_setAdd (set : List Conn) (ws : Conn) (h : set.Nodup) :
    (setAdd set ws).Nodup := by
  unfold setAdd
  split
  · exact h
  · rename_i hmem
    rw [List.nodup_append]
    refine ⟨h, List.nodup_singleton ws, ?_⟩
    intro a ha hb
    simp only [List.mem_singleton] at hb
    subst hb
    exact hmem ha

theorem nodup_setDelete (set : List Conn) (ws : Conn) (h : set.Nodup) :
    (setDelete set ws).Nodup :=
  h.filter _

theorem nodup_chatStep (set : List Conn) (ev : ChatEvent) (h : set.Nodup) :
    (chatStep set ev).1.Nodup := by
  cases ev with
  | connection ws => exact nodup_setAdd set ws h
  | message ws readyState message => exact h
  | close ws => exact nodup_setDelete set ws h

theorem nodup_foldl_chatStep (events : List ChatEvent) (set : List Conn) (h : set.Nodup) :
    (events.foldl (fun set ev => (chatStep set ev).1) set).Nodup := by
  induction events generalizing set with
  | nil => exact h
  | cons ev rest ih => exact ih _ (nodup_chatStep set ev h)

theorem mem_foldl_chatStep (c : Conn) (events : List ChatEvent) (set : List Conn)
    (live : Bool) (h : c ∈ set ↔ live = true) :
    c ∈ events.foldl (fun set ev => (chatStep set ev).1) set ↔
      events.foldl
        (fun live ev =>
          match ev with
          | .connection w => if w = c then true else live
          | .close w => if w = c then false else live
          | .message _ _ _ => live)
        live = true := by
  induction events generalizing set live with
  | nil => exact h
  | cons ev rest ih =>
    simp only [List.foldl_cons]
    apply ih
    cases ev with
    | connection w =>
      simp only [chatStep, mem_setAdd]
      by_cases hw : w = c
      · simp [hw]
      · have hw' : ¬ c = w := fun hh => hw hh.symm
        simp [hw, hw', h]
    | message w readyState message => exact h
    | close w =>
      simp only [chatStep, mem_setDelete]
      by_cases hw : w = c
      · simp [hw]
      · have hw' : c ≠ w := fun hh => hw hh.symm
        simp [hw, hw', h]

theorem mem_chatRun (c : Conn) (events : List ChatEvent) :
    c ∈ chatRun events ↔ connected c events = true :=
  mem_foldl_chatStep c events [] false (by simp)

theorem nodup_chatRun (events : List ChatEvent) : (chatRun events).Nodup :=
  nodup_foldl_chatStep events [] List.nodup_nil

theorem onMessage_targets (set : List Conn) (a : Conn) (readyState : Conn → ReadyState)
    (payload : String) :
    (onMessage set a readyState payload).map Prod.fst =
      set.filter fun client => client != a && readyState client == ReadyState.OPEN := by
  simp [onMessage, List.map_map, Function.comp_def]

/-- C4: after any sequence of connection, close and message events, when connection `a`
sends a payload, the relay sends that payload, unchanged, exactly once to each connection
that has connected and not since disconnected, differs from `a` and is `OPEN`, and to no
other connection; the set of clients is unchanged. With `a`, `b`, `c` connected and open,
`b` and `c` each get it once; after `b` disconnects only `c` gets it. -/
theorem chat_fanout (events : List ChatEvent) (a : Conn) (readyState : Conn → ReadyState)
    (payload : String) :
    (chatStep (chatRun events) (.message a readyState payload)).1 = chatRun events ∧
    (∀ x ∈ (chatStep (chatRun events) (.message a readyState payload)).2, x.2 = payload) ∧
    (∀ c : Conn,
      ((chatStep (chatRun events) (.message a readyState payload)).2.map Prod.fst).count c =
        if connected c events = true ∧ c ≠ a ∧ readyState c = ReadyState.OPEN then 1 else 0) ∧
    (∀ b c : Conn, a ≠ b → a ≠ c → b ≠ c →
      readyState b = ReadyState.OPEN → readyState c = ReadyState.OPEN →
      (chatStep (chatRun [.connection a, .connection b, .connection c])
          (.message a readyState payload)).2 = [(b, payload), (c, payload)] ∧
        (chatStep (chatRun [.connection a, .connection b, .connection c, .close b])
          (.message a readyState payload)).2 = [(c, payload)]) := by
  refine ⟨rfl, ?_, ?_, ?_⟩
  · intro x hx
    simp only [chatStep, onMessage, List.mem_map] at hx
    obtain ⟨client, _, rfl⟩ := hx
    rfl
  · intro c
    show ((onMessage (chatRun events) a readyState payload).map Prod.fst).count c = _
    rw [onMessage_targets, List.count_eq_of_nodup ((nodup_chatRun events).filter _)]
    simp only [List.mem_filter, mem_chatRun, Bool.and_eq_true, bne_iff_ne, beq_iff_eq]
  · intro b c hab hac hbc hb hc
    have hba : b ≠ a := fun h => hab h.symm
    have hca : c ≠ a := fun h => hac h.symm
    have hcb : c ≠ b := fun h => hbc h.symm
    have hrun : chatRun [.connection a, .connection b, .connection c] = [a, b, c] := by
      simp [chatRun, chatStep, setAdd, hba, hca, hcb]
    have hrun' : chatRun [.connection a, .connection b, .connection c, .close b] = [a, c] := by
      simp [chatRun, chatStep, setAdd, setDelete, List.filter_cons, hab, hba, hca, hcb]
    rw [hrun, hrun']
    constructor
    · simp [chatStep, onMessage, List.filter_cons, hba, hca, hb, hc]
    · simp [chatStep, onMessage, List.filter_cons, hca, hc]

theorem chat_fanout_witness :
    ((0 : Conn) ≠ 1 ∧ (0 : Conn) ≠ 2 ∧ (1 : Conn) ≠ 2) ∧
    (chatStep (chatRun [.connection 0, .connection 1, .connection 2])
        (.message 0 (fun _ => ReadyState.OPEN) "hi")).2 = [(1, "hi"), (2, "hi")] ∧
    (chatStep (chatRun [.connection 0, .connection 1, .connection 2, .close 1])
        (.message 0 (fun _ => ReadyState.OPEN) "hi")).2 = [(2, "hi")] ∧
    ((chatStep (chatRun [.connection 0, .connection 1, .connection 2, .close 1])
        (.message 0 (fun ws => if ws = 2 then ReadyState.CLOSING else ReadyState.OPEN)
          "hi")).2.map Prod.fst).count 2 = 0 :=
  ⟨⟨by decide, by decide, by decide⟩,
    ((chat_fanout [] 0 (fun _ => ReadyState.OPEN) "hi").2.2.2 1 2 (by decide) (by decide)
      (by decide) rfl rfl).1,
    ((chat_fanout [] 0 (fun _ => ReadyState.OPEN) "hi").2.2.2 1 2 (by decide) (by decide)
      (by decide) rfl rfl).2,
    by
      rw [(chat_fanout [.connection 0, .connection 1, .connection 2, .close 1] 0
        (fun ws => if ws = 2 then ReadyState.CLOSING else ReadyState.OPEN) "hi").2.2.1 2]
      decide⟩

end Ashilac
